import Mathlib

/-!
Verification of the lease-coordinated population protocol of
`src/lib/decorators/PopulateDecorator.js` (distribucache).

The JavaScript code is callback-based but each call runs the callbacks of
one operation sequentially, so it is embedded as pure functions over an
explicit `World` (the cache store's contents, the behaviour of the
caller-supplied `populate` function, and the lease coordinator's response
per lock key).  Every run function returns its callback result, an ordered
trace of the observable effects it performed, and the final store.
-/

deriving instance DecidableEq for Except

namespace Distribucache

/-- Model of a JavaScript runtime value as stored in or returned by the
cache.  `undefined` stands for JavaScript `undefined`, which is also what the
underlying store's `get` yields for an absent key. -/
inductive JSValue where
  | undefined
  | null
  | bool (b : Bool)
  | num (n : Int)
  | str (s : String)
  deriving DecidableEq

/-- JavaScript truthiness, as tested by `if (value)` on line 51 of
`PopulateDecorator.prototype.get`. -/
def JSValue.truthy : JSValue → Bool
  | .undefined => false
  | .null => false
  | .bool b => b
  | .num n => n != 0
  | .str s => s != ""

/-- Model of a JavaScript `Error` object: a class name (`name`), a mutable
`message`, and an optional inner error, as attached by the classes that
`common-errors`' `generateClass` produces (`new PopulateError(message,
cause)` keeps `message` and stores `cause` as the inner error). -/
inductive Err where
  | base (name message : String)
  | wrap (name message : String) (cause : Err)
  deriving DecidableEq

/-- Class name of an error object. -/
def Err.name : Err → String
  | .base n _ => n
  | .wrap n _ _ => n

/-- Message of an error object. -/
def Err.message : Err → String
  | .base _ m => m
  | .wrap _ m _ => m

/-- Inner (wrapped) error of an error object, when present. -/
def Err.cause : Err → Option Err
  | .base _ _ => none
  | .wrap _ _ c => some c

/-- JavaScript `e.message = m`: mutates the message, keeping the error's
class and any inner error (line 72 of `PopulateDecorator.js`). -/
def Err.setMessage : Err → String → Err
  | .base n _, m => .base n m
  | .wrap n _ c, m => .wrap n m c

/-- Decides whether the character list starts with the pattern. -/
def charsMatchHere : List Char → List Char → Bool
  | [], _ => true
  | _ :: _, [] => false
  | p :: ps, c :: cs => p == c && charsMatchHere ps cs

/-- Decides whether the pattern occurs anywhere in the character list. -/
def charsContain (pat : List Char) : List Char → Bool
  | [] => charsMatchHere pat []
  | c :: cs => charsMatchHere pat (c :: cs) || charsContain pat cs

/-- Substring test on strings: `strContains s pat` holds when `pat` occurs
in `s`.  This models `/literal/.test(s)` for a regex with no special
characters, as used on line 103 of `PopulateDecorator.js`. -/
def strContains (s pat : String) : Bool :=
  charsContain pat.data s.data

/-- The literal tested against the acquisition error's message on line 103:
`/Exceeded max retry count/.test(err.message)`. -/
def lockContentionPattern : String := "Exceeded max retry count"

/-- The underlying cache store's contents: an association list from keys to
values, most recent write first. -/
abbrev Store := List (String × JSValue)

/-- Lookup in the store; `none` models a truly-absent key. -/
def storeLookup : Store → String → Option JSValue
  | [], _ => none
  | (k, v) :: rest, key => if k = key then some v else storeLookup rest key

/-- Modelled from the spec: `BaseDecorator`'s `set` (bound on line 76 as
the second waterfall step of `populate`) is not under `src/`.  Per the
spec, on success the populator "write[s] `value` to the underlying cache
store via its `set` primitive" and "returns the populated value to the
caller"; so `set` records the write and its callback forwards the value. -/
def storeWrite (st : Store) (key : String) (v : JSValue) : Store :=
  (key, v) :: st

/-- What the underlying store's `get` hands to its callback: the stored
value, or `undefined` for an absent key. -/
def cacheGetValue (st : Store) (key : String) : JSValue :=
  (storeLookup st key).getD .undefined

/-- Behaviour of the caller-supplied `config.populate(key, cb)` function on
one invocation for a given key: it may throw synchronously, call back with
an error, call back with a value, or never call back in time. -/
inductive PopBehavior where
  | throws (e : Err)
  | fails (e : Err)
  | succeeds (v : JSValue)
  | hangs
  deriving DecidableEq

/-- Response of the lease coordinator (`redis-lockr`, external) to an
acquisition attempt on a given lock key: `critical(err, unlock)` is called
with no error and an unlock releaser, or with an error. -/
inductive LeaseResult where
  | granted
  | denied (e : Err)
  deriving DecidableEq

/-- The environment one call runs in: current store contents, the
caller-supplied populate function's behaviour per key, and the lease
coordinator's response per lock key. -/
structure World where
  store : Store
  userPopulate : String → PopBehavior
  lease : String → LeaseResult

/-- Observable effects and signals, in the order they happen. -/
inductive Event where
  | userPopulate (key : String)
  | storeSet (key : String) (v : JSValue)
  | leaseRequest (lockKey : String)
  | leaseRelease (lockKey : String)
  | signalErr (e : Err)
  | signalOk (v : Option JSValue)
  | errorSink (e : Err)
  deriving DecidableEq

/-- Result of running one operation: the value or error it hands to its
callback, the ordered trace of its effects, and the final store. -/
structure Run (α : Type) where
  result : α
  trace : List Event
  finalStore : Store
  deriving DecidableEq

/-- Modelled from the spec: `completeWithin` (`src/lib/util`, not under
`src/`) wraps a callback with the populate deadline; the spec's Timeout
Guard forwards the wrapped operation's result unchanged when it completes
in time and reports a `TimeoutError` when it does not. -/
def timeoutError : Err :=
  .base "TimeoutError" "populate timed out"

/-- Outcome of the first waterfall step of
`PopulateDecorator.prototype.populate` (lines 67-75): the user function is
invoked under the timeout guard; a synchronous throw is caught, the thrown
error's message is mutated to record the cause, and the same error object
is passed to the callback. -/
def userStepResult (w : World) (key : String) : Except Err JSValue :=
  match w.userPopulate key with
  | .throws e => .error (e.setMessage ("populate threw an error; cause: " ++ e.message))
  | .fails e => .error e
  | .hangs => .error timeoutError
  | .succeeds v => .ok v

/-- `PopulateDecorator.prototype.populate` (lines 64-78): run the user
populate function under the timeout guard, then on success write the value
through `set`, whose callback forwards the value; an error in either step
short-circuits the waterfall to the final callback. -/
def runPopulate (w : World) (key : String) : Run (Except Err JSValue) :=
  match userStepResult w key with
  | .error e => ⟨.error e, [.userPopulate key], w.store⟩
  | .ok v => ⟨.ok v, [.userPopulate key, .storeSet key v], storeWrite w.store key v⟩

/-- `PopulateDecorator.prototype.get` (lines 46-55): read the key from the
underlying store; a truthy value is returned at once, otherwise fall
through to `populate`. -/
def runGet (w : World) (key : String) : Run (Except Err JSValue) :=
  let v := cacheGetValue w.store key
  if v.truthy then ⟨.ok v, [], w.store⟩
  else runPopulate w key

/-- `PopulateDecorator.prototype.leasedPopulate` (lines 93-117): acquire
the lease named `nsp ++ key`; a denial whose message matches the retry
pattern is a benign no-op (`cb(null)`), any other denial signals a
`LockError` naming the lock key; on grant, run `populate`, wrapping a
failure in a `PopulateError` naming the lock key (lease left unreleased),
and on success release the lease and then signal the value. -/
def runLeasedPopulate (w : World) (nsp key : String) : Run (Except Err (Option JSValue)) :=
  match w.lease (nsp ++ key) with
  | .denied e =>
      if strContains e.message lockContentionPattern then
        ⟨.ok none, [.leaseRequest (nsp ++ key), .signalOk none], w.store⟩
      else
        ⟨.error (Err.wrap "LockError" ("could not aquire lock for: " ++ (nsp ++ key)) e),
          [.leaseRequest (nsp ++ key),
            .signalErr (Err.wrap "LockError" ("could not aquire lock for: " ++ (nsp ++ key)) e)],
          w.store⟩
  | .granted =>
      match (runPopulate w key).result with
      | .error e =>
          ⟨.error (Err.wrap "PopulateError" ("failed to populate \"" ++ (nsp ++ key) ++ "\"") e),
            .leaseRequest (nsp ++ key) :: (runPopulate w key).trace ++
              [.signalErr
                (Err.wrap "PopulateError" ("failed to populate \"" ++ (nsp ++ key) ++ "\"") e)],
            (runPopulate w key).finalStore⟩
      | .ok v =>
          ⟨.ok (some v),
            .leaseRequest (nsp ++ key) :: (runPopulate w key).trace ++
              [.leaseRelease (nsp ++ key), .signalOk (some v)],
            (runPopulate w key).finalStore⟩

/-- Modelled from the spec: `_emitError` (from `BaseDecorator`, not under
`src/`) is the callback `_onStaleEvent` hands to `leasedPopulate` on line
127; per the spec, background errors "are redirected to a dedicated error
sink" and the result "is never returned to any waiting caller", so an
error signal becomes an error-sink emission and a success signal is
discarded. -/
def sinkSignal : Event → List Event
  | .signalErr e => [.errorSink e]
  | .signalOk _ => []
  | .userPopulate k => [.userPopulate k]
  | .storeSet k v => [.storeSet k v]
  | .leaseRequest lk => [.leaseRequest lk]
  | .leaseRelease lk => [.leaseRelease lk]
  | .errorSink e => [.errorSink e]

/-- `PopulateDecorator.prototype._onStaleEvent` (lines 126-128), the
handler registered for the `stale` event on line 34: invoke
`leasedPopulate(key, this._emitError)`; no value is returned to anyone. -/
def runOnStaleEvent (w : World) (nsp key : String) : Run Unit :=
  ⟨(), ((runLeasedPopulate w nsp key).trace.map sinkSignal).flatten,
    (runLeasedPopulate w nsp key).finalStore⟩

/-- Number of invocations of the caller-supplied populate function recorded
in a trace. -/
def userCallCount (t : List Event) : Nat :=
  (t.filter fun ev => match ev with | .userPopulate _ => true | _ => false).length

/-- Number of store writes recorded in a trace. -/
def storeWriteCount (t : List Event) : Nat :=
  (t.filter fun ev => match ev with | .storeSet _ _ => true | _ => false).length

/-- Number of lease events (requests or releases) recorded in a trace. -/
def leaseEventCount (t : List Event) : Nat :=
  (t.filter fun ev =>
    match ev with | .leaseRequest _ => true | .leaseRelease _ => true | _ => false).length

/-- Whether an event signals a result (value or error) to a caller. -/
def Event.isSignal : Event → Bool
  | .signalErr _ => true
  | .signalOk _ => true
  | .userPopulate _ => false
  | .storeSet _ _ => false
  | .leaseRequest _ => false
  | .leaseRelease _ => false
  | .errorSink _ => false

/-- Example world in which the lease is already held elsewhere: acquisition
is denied with the retry-exhausted message `redis-lockr` produces. -/
def contentionWorld : World :=
  { store := [("k", .str "old")]
    userPopulate := fun _ => .succeeds (.str "v1")
    lease := fun _ => .denied (.base "Error" "Exceeded max retry count of 10") }

/-- Example world in which the lease is granted and the user populate
function succeeds. -/
def grantedWorld : World :=
  { store := []
    userPopulate := fun _ => .succeeds (.str "v1")
    lease := fun _ => .granted }

/-- Example world in which the lease is granted and the user populate
function calls back with an error. -/
def popFailWorld : World :=
  { store := []
    userPopulate := fun _ => .fails (.base "Error" "boom")
    lease := fun _ => .granted }

/-- Example world in which lease acquisition fails with an infrastructure
error (message not matching the retry pattern). -/
def lockFailWorld : World :=
  { store := [("k", .str "old")]
    userPopulate := fun _ => .succeeds (.str "v1")
    lease := fun _ => .denied (.base "Error" "connection refused") }

/-- Example world in which the user populate function throws synchronously
with a `TypeError`. -/
def throwWorld : World :=
  { store := []
    userPopulate := fun _ => .throws (.base "TypeError" "boom")
    lease := fun _ => .granted }

/-- Example world with an empty store and a succeeding populate function. -/
def missWorld : World :=
  { store := []
    userPopulate := fun _ => .succeeds (.str "v1")
    lease := fun _ => .granted }

/-- Example world in which the store holds a falsy value (the empty string)
under key `k`. -/
def falsyStoreWorld : World :=
  { store := [("k", .str "")]
    userPopulate := fun _ => .succeeds (.str "fresh")
    lease := fun _ => .granted }

/-- Example world in which the store holds a truthy value under key `k`. -/
def truthyStoreWorld : World :=
  { store := [("k", .str "v")]
    userPopulate := fun _ => .succeeds (.str "fresh")
    lease := fun _ => .granted }

/-- Example world in which lease acquisition is denied with a message that
does not match the retry pattern. -/
def retryDeniedWorld : World :=
  { store := []
    userPopulate := fun _ => .succeeds (.str "v1")
    lease := fun _ => .denied (.base "Error" "Exceeded max retry count of 3") }

/-- Example world in which the store holds the falsy number `0` under key
`k`. -/
def zeroStoreWorld : World :=
  { store := [("k", .num 0)]
    userPopulate := fun _ => .succeeds (.str "fresh")
    lease := fun _ => .granted }

theorem charsMatchHere_append (p r : List Char) : charsMatchHere p (p ++ r) = true := by
  induction p with
  | nil => rfl
  | cons c cs ih => simp [charsMatchHere, ih]

theorem charsContain_of_matchHere (pat s : List Char)
    (h : charsMatchHere pat s = true) : charsContain pat s = true := by
  cases s with
  | nil => exact h
  | cons c cs => simp [charsContain, h]

theorem charsContain_append (pat l r : List Char) :
    charsContain pat (l ++ (pat ++ r)) = true := by
  induction l with
  | nil => exact charsContain_of_matchHere _ _ (charsMatchHere_append pat r)
  | cons c cs ih => simp [charsContain, ih]

theorem strContains_sandwich (a pat b : String) :
    strContains (a ++ pat ++ b) pat = true := by
  unfold strContains
  have h : (a ++ pat ++ b).data = a.data ++ (pat.data ++ b.data) := by
    simp [String.data_append, List.append_assoc]
  rw [h]
  exact charsContain_append pat.data a.data b.data

theorem strContains_suffix (a pat : String) : strContains (a ++ pat) pat = true := by
  unfold strContains
  have h : (a ++ pat).data = a.data ++ (pat.data ++ []) := by
    simp [String.data_append]
  rw [h]
  exact charsContain_append pat.data a.data []

theorem runLeasedPopulate_denied (w : World) (nsp key : String) (e : Err)
    (hden : w.lease (nsp ++ key) = .denied e) :
    runLeasedPopulate w nsp key =
      if strContains e.message lockContentionPattern then
        ⟨.ok none, [.leaseRequest (nsp ++ key), .signalOk none], w.store⟩
      else
        ⟨.error (Err.wrap "LockError" ("could not aquire lock for: " ++ (nsp ++ key)) e),
          [.leaseRequest (nsp ++ key),
            .signalErr (Err.wrap "LockError" ("could not aquire lock for: " ++ (nsp ++ key)) e)],
          w.store⟩ := by
  unfold runLeasedPopulate
  rw [hden]

theorem runLeasedPopulate_granted (w : World) (nsp key : String)
    (hgr : w.lease (nsp ++ key) = .granted) :
    runLeasedPopulate w nsp key =
      match (runPopulate w key).result with
      | .error e =>
          ⟨.error (Err.wrap "PopulateError" ("failed to populate \"" ++ (nsp ++ key) ++ "\"") e),
            .leaseRequest (nsp ++ key) :: (runPopulate w key).trace ++
              [.signalErr
                (Err.wrap "PopulateError" ("failed to populate \"" ++ (nsp ++ key) ++ "\"") e)],
            (runPopulate w key).finalStore⟩
      | .ok v =>
          ⟨.ok (some v),
            .leaseRequest (nsp ++ key) :: (runPopulate w key).trace ++
              [.leaseRelease (nsp ++ key), .signalOk (some v)],
            (runPopulate w key).finalStore⟩ := by
  unfold runLeasedPopulate
  rw [hgr]

theorem runPopulate_userStep_error (w : World) (key : String) (e : Err)
    (h : userStepResult w key = .error e) :
    runPopulate w key = ⟨.error e, [.userPopulate key], w.store⟩ := by
  unfold runPopulate
  rw [h]

theorem runPopulate_userStep_ok (w : World) (key : String) (v : JSValue)
    (h : userStepResult w key = .ok v) :
    runPopulate w key =
      ⟨.ok v, [.userPopulate key, .storeSet key v], storeWrite w.store key v⟩ := by
  unfold runPopulate
  rw [h]

theorem runPopulate_trace_no_release (w : World) (key lk : String) :
    Event.leaseRelease lk ∉ (runPopulate w key).trace := by
  rcases h : userStepResult w key with e | v
  · rw [runPopulate_userStep_error w key e h]
    simp
  · rw [runPopulate_userStep_ok w key v h]
    simp

/-- C1: when lease acquisition is denied with the benign-contention message
(the lease is already held by another process), `leasedPopulate` signals
success with no value, never invokes the user populate function, performs
no store write, and leaves the store unchanged. -/
theorem leasedPopulate_benign_contention_noop
    (w : World) (nsp key : String) (e : Err)
    (hden : w.lease (nsp ++ key) = .denied e)
    (hmsg : strContains e.message lockContentionPattern = true) :
    (runLeasedPopulate w nsp key).result = .ok none ∧
    userCallCount (runLeasedPopulate w nsp key).trace = 0 ∧
    storeWriteCount (runLeasedPopulate w nsp key).trace = 0 ∧
    (runLeasedPopulate w nsp key).finalStore = w.store := by
  simp [runLeasedPopulate, hden, hmsg, userCallCount, storeWriteCount]

theorem leasedPopulate_benign_contention_noop_witness :
    contentionWorld.lease ("d:" ++ "k") =
      .denied (.base "Error" "Exceeded max retry count of 10") ∧
    strContains (Err.base "Error" "Exceeded max retry count of 10").message
      lockContentionPattern = true ∧
    ((runLeasedPopulate contentionWorld "d:" "k").result = .ok none ∧
      userCallCount (runLeasedPopulate contentionWorld "d:" "k").trace = 0 ∧
      storeWriteCount (runLeasedPopulate contentionWorld "d:" "k").trace = 0 ∧
      (runLeasedPopulate contentionWorld "d:" "k").finalStore = contentionWorld.store) :=
  ⟨rfl, by decide,
    leasedPopulate_benign_contention_noop contentionWorld "d:" "k" _ rfl (by decide)⟩

/-- C4: when lease acquisition is denied for any reason other than benign
contention, `leasedPopulate` signals a `LockError` that wraps the
underlying cause and names the lease in its message, never invokes the
user populate function, and leaves the store unchanged. -/
theorem leasedPopulate_lock_error
    (w : World) (nsp key : String) (e : Err)
    (hden : w.lease (nsp ++ key) = .denied e)
    (hmsg : strContains e.message lockContentionPattern = false) :
    (runLeasedPopulate w nsp key).result =
      .error (Err.wrap "LockError" ("could not aquire lock for: " ++ (nsp ++ key)) e) ∧
    (Err.wrap "LockError" ("could not aquire lock for: " ++ (nsp ++ key)) e).name
      = "LockError" ∧
    (Err.wrap "LockError" ("could not aquire lock for: " ++ (nsp ++ key)) e).cause
      = some e ∧
    strContains
      (Err.wrap "LockError" ("could not aquire lock for: " ++ (nsp ++ key)) e).message
      (nsp ++ key) = true ∧
    userCallCount (runLeasedPopulate w nsp key).trace = 0 ∧
    (runLeasedPopulate w nsp key).finalStore = w.store := by
  rw [runLeasedPopulate_denied w nsp key e hden, if_neg (by simp [hmsg])]
  exact ⟨rfl, rfl, rfl, strContains_suffix _ _, rfl, rfl⟩

theorem leasedPopulate_lock_error_witness :
    lockFailWorld.lease ("d:" ++ "k") = .denied (.base "Error" "connection refused") ∧
    strContains (Err.base "Error" "connection refused").message
      lockContentionPattern = false ∧
    ((runLeasedPopulate lockFailWorld "d:" "k").result =
        .error (Err.wrap "LockError" ("could not aquire lock for: " ++ ("d:" ++ "k"))
          (.base "Error" "connection refused")) ∧
      (Err.wrap "LockError" ("could not aquire lock for: " ++ ("d:" ++ "k"))
          (.base "Error" "connection refused")).name = "LockError" ∧
      (Err.wrap "LockError" ("could not aquire lock for: " ++ ("d:" ++ "k"))
          (.base "Error" "connection refused")).cause
        = some (.base "Error" "connection refused") ∧
      strContains
        (Err.wrap "LockError" ("could not aquire lock for: " ++ ("d:" ++ "k"))
          (.base "Error" "connection refused")).message ("d:" ++ "k") = true ∧
      userCallCount (runLeasedPopulate lockFailWorld "d:" "k").trace = 0 ∧
      (runLeasedPopulate lockFailWorld "d:" "k").finalStore = lockFailWorld.store) :=
  ⟨rfl, by decide, leasedPopulate_lock_error lockFailWorld "d:" "k" _ rfl (by decide)⟩

/-- C9: with a denied acquisition, `leasedPopulate` resolves as a benign
no-op exactly when the acquisition error's message contains the pattern
`Exceeded max retry count`; any other denial signals the `LockError`. -/
theorem leasedPopulate_contention_classification
    (w : World) (nsp key : String) (e : Err)
    (hden : w.lease (nsp ++ key) = .denied e) :
    ((runLeasedPopulate w nsp key).result = .ok none ↔
      strContains e.message "Exceeded max retry count" = true) ∧
    (strContains e.message "Exceeded max retry count" = false →
      (runLeasedPopulate w nsp key).result =
        .error (Err.wrap "LockError" ("could not aquire lock for: " ++ (nsp ++ key)) e)) := by
  by_cases hm : strContains e.message lockContentionPattern = true
  · refine ⟨?_, ?_⟩
    · simp only [runLeasedPopulate, hden, hm, if_true]
      simpa [lockContentionPattern] using hm
    · intro hfalse
      rw [show ("Exceeded max retry count" : String) = lockContentionPattern from rfl] at hfalse
      rw [hm] at hfalse
      exact absurd hfalse (by simp)
  · have hm' : strContains e.message lockContentionPattern = false := by
      simpa using hm
    refine ⟨?_, fun _ => ?_⟩ <;>
      simp [runLeasedPopulate, hden, hm', lockContentionPattern] at *


theorem leasedPopulate_contention_classification_witness :
    retryDeniedWorld.lease ("d:" ++ "k") =
      .denied (.base "Error" "Exceeded max retry count of 3") ∧
    (((runLeasedPopulate retryDeniedWorld "d:" "k").result = .ok none ↔
        strContains (Err.base "Error" "Exceeded max retry count of 3").message
          "Exceeded max retry count" = true) ∧
      (strContains (Err.base "Error" "Exceeded max retry count of 3").message
          "Exceeded max retry count" = false →
        (runLeasedPopulate retryDeniedWorld "d:" "k").result =
          .error (Err.wrap "LockError" ("could not aquire lock for: " ++ ("d:" ++ "k"))
            (.base "Error" "Exceeded max retry count of 3")))) :=
  ⟨rfl, leasedPopulate_contention_classification retryDeniedWorld "d:" "k" _ rfl⟩

/-- C2: after a successful lease acquisition, the lease releaser is invoked
exactly when the inner populate step succeeds; on the success path the
release appears in the trace before the success signal carrying the
populated value, and on populate failure no release ever happens (the
lease is left to auto-expire). -/
theorem leasedPopulate_release_iff_populate_success
    (w : World) (nsp key : String)
    (hgr : w.lease (nsp ++ key) = .granted) :
    (Event.leaseRelease (nsp ++ key) ∈ (runLeasedPopulate w nsp key).trace ↔
      ∃ v, (runPopulate w key).result = .ok v) ∧
    ∀ v, (runPopulate w key).result = .ok v →
      (runLeasedPopulate w nsp key).result = .ok (some v) ∧
      ∃ pre, (runLeasedPopulate w nsp key).trace =
        pre ++ [Event.leaseRelease (nsp ++ key), Event.signalOk (some v)] := by
  have hnl := runPopulate_trace_no_release w key (nsp ++ key)
  rcases hr : (runPopulate w key).result with e | v <;>
    simp only [runLeasedPopulate_granted w nsp key hgr, hr]
  · constructor
    · simp [hnl]
    · intro v hv
      cases hv
  · refine ⟨by simp, fun v' hv' => ?_⟩
    cases hv'
    refine ⟨rfl, Event.leaseRequest (nsp ++ key) :: (runPopulate w key).trace, ?_⟩
    simp

theorem leasedPopulate_release_iff_populate_success_witness :
    grantedWorld.lease ("d:" ++ "k") = .granted ∧
    ((Event.leaseRelease ("d:" ++ "k") ∈ (runLeasedPopulate grantedWorld "d:" "k").trace ↔
        ∃ v, (runPopulate grantedWorld "k").result = .ok v) ∧
      ∀ v, (runPopulate grantedWorld "k").result = .ok v →
        (runLeasedPopulate grantedWorld "d:" "k").result = .ok (some v) ∧
        ∃ pre, (runLeasedPopulate grantedWorld "d:" "k").trace =
          pre ++ [Event.leaseRelease ("d:" ++ "k"), Event.signalOk (some v)]) :=
  ⟨rfl, leasedPopulate_release_iff_populate_success grantedWorld "d:" "k" rfl⟩

/-- C3: after a successful lease acquisition, a failure of the inner
populate step is signalled as a `PopulateError` whose inner error is the
original cause and whose message names the lease (`namespace ++ key`). -/
theorem leasedPopulate_populate_failure_wraps
    (w : World) (nsp key : String) (e : Err)
    (hgr : w.lease (nsp ++ key) = .granted)
    (hfail : (runPopulate w key).result = .error e) :
    (runLeasedPopulate w nsp key).result =
      .error (Err.wrap "PopulateError" ("failed to populate \"" ++ (nsp ++ key) ++ "\"") e) ∧
    (Err.wrap "PopulateError" ("failed to populate \"" ++ (nsp ++ key) ++ "\"") e).name
      = "PopulateError" ∧
    (Err.wrap "PopulateError" ("failed to populate \"" ++ (nsp ++ key) ++ "\"") e).cause
      = some e ∧
    strContains
      (Err.wrap "PopulateError" ("failed to populate \"" ++ (nsp ++ key) ++ "\"") e).message
      (nsp ++ key) = true := by
  rw [runLeasedPopulate_granted w nsp key hgr, hfail]
  exact ⟨rfl, rfl, rfl, strContains_sandwich _ _ _⟩

theorem leasedPopulate_populate_failure_wraps_witness :
    popFailWorld.lease ("d:" ++ "k") = .granted ∧
    (runPopulate popFailWorld "k").result = .error (.base "Error" "boom") ∧
    ((runLeasedPopulate popFailWorld "d:" "k").result =
        .error (Err.wrap "PopulateError" ("failed to populate \"" ++ ("d:" ++ "k") ++ "\"")
          (.base "Error" "boom")) ∧
      (Err.wrap "PopulateError" ("failed to populate \"" ++ ("d:" ++ "k") ++ "\"")
          (.base "Error" "boom")).name = "PopulateError" ∧
      (Err.wrap "PopulateError" ("failed to populate \"" ++ ("d:" ++ "k") ++ "\"")
          (.base "Error" "boom")).cause = some (.base "Error" "boom") ∧
      strContains
        (Err.wrap "PopulateError" ("failed to populate \"" ++ ("d:" ++ "k") ++ "\"")
          (.base "Error" "boom")).message ("d:" ++ "k") = true) :=
  ⟨rfl, by decide,
    leasedPopulate_populate_failure_wraps popFailWorld "d:" "k" _ rfl (by decide)⟩

/-- C5 counterexample: with the user populate function throwing a
`TypeError` with message `boom` for key `k`, `populate` hands its callback
the very same error object with only its message changed: the error's
class is not `PopulateError` and its message does not record the key. -/
theorem populate_sync_throw_counterexample :
    throwWorld.userPopulate "k" = .throws (.base "TypeError" "boom") ∧
    (runPopulate throwWorld "k").result =
      .error (.base "TypeError" "populate threw an error; cause: boom") ∧
    (Err.base "TypeError" "populate threw an error; cause: boom").name ≠ "PopulateError" ∧
    strContains (Err.base "TypeError" "populate threw an error; cause: boom").message "k"
      = false := by
  decide

/-- C5 (amended): a synchronous throw of the user populate function is
caught and handed to the callback as the same error object — same class,
same inner error — with its message changed to record the original cause
behind the text `populate threw an error; cause: `; no store write happens
and the store is unchanged, so the fault never escapes the call. -/
theorem populate_sync_throw_caught
    (w : World) (key : String) (e : Err)
    (hthrow : w.userPopulate key = .throws e) :
    (runPopulate w key).result =
      .error (e.setMessage ("populate threw an error; cause: " ++ e.message)) ∧
    (e.setMessage ("populate threw an error; cause: " ++ e.message)).name = e.name ∧
    (e.setMessage ("populate threw an error; cause: " ++ e.message)).cause = e.cause ∧
    storeWriteCount (runPopulate w key).trace = 0 ∧
    (runPopulate w key).finalStore = w.store := by
  have hstep : userStepResult w key =
      .error (e.setMessage ("populate threw an error; cause: " ++ e.message)) := by
    unfold userStepResult
    rw [hthrow]
  rw [runPopulate_userStep_error w key _ hstep]
  refine ⟨rfl, ?_, ?_, rfl, rfl⟩ <;> cases e <;> rfl

theorem populate_sync_throw_caught_witness :
    throwWorld.userPopulate "k" = .throws (.base "TypeError" "boom") ∧
    ((runPopulate throwWorld "k").result =
        .error ((Err.base "TypeError" "boom").setMessage
          ("populate threw an error; cause: " ++ (Err.base "TypeError" "boom").message)) ∧
      ((Err.base "TypeError" "boom").setMessage
          ("populate threw an error; cause: " ++ (Err.base "TypeError" "boom").message)).name
        = (Err.base "TypeError" "boom").name ∧
      ((Err.base "TypeError" "boom").setMessage
          ("populate threw an error; cause: " ++ (Err.base "TypeError" "boom").message)).cause
        = (Err.base "TypeError" "boom").cause ∧
      storeWriteCount (runPopulate throwWorld "k").trace = 0 ∧
      (runPopulate throwWorld "k").finalStore = throwWorld.store) :=
  ⟨rfl, populate_sync_throw_caught throwWorld "k" _ rfl⟩

/-- C6: for a key absent from the store, `get` invokes the user populate
function exactly once, returns exactly what `populate` hands back, and
when the user populate function succeeds with `v` the call returns `v` and
`v` is found in the store afterward, put there by one `set` write. -/
theorem get_miss_populates_once
    (w : World) (key : String)
    (habs : storeLookup w.store key = none) :
    userCallCount (runGet w key).trace = 1 ∧
    (runGet w key).result = (runPopulate w key).result ∧
    ∀ v, w.userPopulate key = .succeeds v →
      (runGet w key).result = .ok v ∧
      storeLookup (runGet w key).finalStore key = some v ∧
      storeWriteCount (runGet w key).trace = 1 := by
  have hget : runGet w key = runPopulate w key := by
    unfold runGet cacheGetValue
    rw [habs]
    rfl
  rw [hget]
  refine ⟨?_, rfl, fun v hv => ?_⟩
  · rcases h : userStepResult w key with e | v
    · rw [runPopulate_userStep_error w key e h]
      rfl
    · rw [runPopulate_userStep_ok w key v h]
      rfl
  · have hstep : userStepResult w key = .ok v := by
      unfold userStepResult
      rw [hv]
    rw [runPopulate_userStep_ok w key v hstep]
    refine ⟨rfl, ?_, rfl⟩
    unfold storeWrite storeLookup
    simp

theorem get_miss_populates_once_witness :
    storeLookup missWorld.store "k" = none ∧
    (userCallCount (runGet missWorld "k").trace = 1 ∧
      (runGet missWorld "k").result = (runPopulate missWorld "k").result ∧
      ∀ v, missWorld.userPopulate "k" = .succeeds v →
        (runGet missWorld "k").result = .ok v ∧
        storeLookup (runGet missWorld "k").finalStore "k" = some v ∧
        storeWriteCount (runGet missWorld "k").trace = 1) :=
  ⟨rfl, get_miss_populates_once missWorld "k" rfl⟩

/-- C7 counterexample: with the store holding the empty string (present,
but falsy) under key `k`, `get` does invoke the user populate function and
returns the freshly populated value, not the stored one — refuting the
claim that every key present in the store is returned without
population. -/
theorem get_present_falsy_counterexample :
    storeLookup falsyStoreWorld.store "k" = some (.str "") ∧
    userCallCount (runGet falsyStoreWorld "k").trace = 1 ∧
    (runGet falsyStoreWorld "k").result = .ok (.str "fresh") ∧
    (runGet falsyStoreWorld "k").result ≠ .ok (.str "") := by
  decide

/-- C7 (amended): for a key whose stored value is truthy, `get` returns
the stored value as-is, never invokes the user populate function, touches
no lease, and leaves the store unchanged. -/
theorem get_present_truthy_returns_stored
    (w : World) (key : String) (v : JSValue)
    (hpres : storeLookup w.store key = some v)
    (htru : v.truthy = true) :
    (runGet w key).result = .ok v ∧
    userCallCount (runGet w key).trace = 0 ∧
    leaseEventCount (runGet w key).trace = 0 ∧
    (runGet w key).finalStore = w.store := by
  have hget : runGet w key = ⟨.ok v, [], w.store⟩ := by
    unfold runGet cacheGetValue
    rw [hpres]
    simp [htru]
  rw [hget]
  exact ⟨rfl, rfl, rfl, rfl⟩

theorem get_present_truthy_returns_stored_witness :
    storeLookup truthyStoreWorld.store "k" = some (.str "v") ∧
    JSValue.truthy (.str "v") = true ∧
    ((runGet truthyStoreWorld "k").result = .ok (.str "v") ∧
      userCallCount (runGet truthyStoreWorld "k").trace = 0 ∧
      leaseEventCount (runGet truthyStoreWorld "k").trace = 0 ∧
      (runGet truthyStoreWorld "k").finalStore = truthyStoreWorld.store) :=
  ⟨rfl, by decide,
    get_present_truthy_returns_stored truthyStoreWorld "k" _ rfl (by decide)⟩

/-- C10: `get` treats every falsy stored value as a cache miss — the whole
call behaves exactly as the `populate` call, invoking the user populate
function once — while only a truthy stored value is returned without
population. -/
theorem get_falsy_is_miss
    (w : World) (key : String) (v : JSValue)
    (hpres : storeLookup w.store key = some v) :
    (v.truthy = false →
      runGet w key = runPopulate w key ∧ userCallCount (runGet w key).trace = 1) ∧
    (v.truthy = true →
      (runGet w key).result = .ok v ∧ userCallCount (runGet w key).trace = 0) := by
  constructor
  · intro hf
    have hget : runGet w key = runPopulate w key := by
      unfold runGet cacheGetValue
      rw [hpres]
      simp [hf]
    refine ⟨hget, ?_⟩
    rw [hget]
    rcases h : userStepResult w key with e | v'
    · rw [runPopulate_userStep_error w key e h]
      rfl
    · rw [runPopulate_userStep_ok w key v' h]
      rfl
  · intro ht
    have hget : runGet w key = ⟨.ok v, [], w.store⟩ := by
      unfold runGet cacheGetValue
      rw [hpres]
      simp [ht]
    rw [hget]
    exact ⟨rfl, rfl⟩

theorem get_falsy_is_miss_witness :
    storeLookup zeroStoreWorld.store "k" = some (.num 0) ∧
    JSValue.truthy (.num 0) = false ∧
    (runGet zeroStoreWorld "k" = runPopulate zeroStoreWorld "k" ∧
      userCallCount (runGet zeroStoreWorld "k").trace = 1) :=
  ⟨rfl, by decide, (get_falsy_is_miss zeroStoreWorld "k" _ rfl).1 (by decide)⟩

/-- C8: on a stale event the facade runs `leasedPopulate` for the key with
the very same effects (user-populate invocations, store writes, final
store), signals no result to any caller, and emits to the process-wide
error sink exactly the error `leasedPopulate` produced, if any. -/
theorem onStaleEvent_background_error_sink
    (w : World) (nsp key : String) :
    userCallCount (runOnStaleEvent w nsp key).trace =
      userCallCount (runLeasedPopulate w nsp key).trace ∧
    storeWriteCount (runOnStaleEvent w nsp key).trace =
      storeWriteCount (runLeasedPopulate w nsp key).trace ∧
    (runOnStaleEvent w nsp key).finalStore = (runLeasedPopulate w nsp key).finalStore ∧
    (∀ e, Event.errorSink e ∈ (runOnStaleEvent w nsp key).trace ↔
      (runLeasedPopulate w nsp key).result = .error e) ∧
    (∀ ev ∈ (runOnStaleEvent w nsp key).trace, ev.isSignal = false) := by
  unfold runOnStaleEvent
  rcases hl : w.lease (nsp ++ key) with _ | e
  · rw [runLeasedPopulate_granted w nsp key hl]
    rcases hs : userStepResult w key with e | v
    · rw [runPopulate_userStep_error w key e hs]
      refine ⟨rfl, rfl, rfl, fun e' => ?_, fun ev hev => ?_⟩
      · simp [sinkSignal, eq_comm]
      · simp [sinkSignal] at hev
        rcases hev with rfl | rfl | rfl <;> rfl
    · rw [runPopulate_userStep_ok w key v hs]
      refine ⟨rfl, rfl, rfl, fun e' => ?_, fun ev hev => ?_⟩
      · simp [sinkSignal]
      · simp [sinkSignal] at hev
        rcases hev with rfl | rfl | rfl | rfl <;> rfl
  · rw [runLeasedPopulate_denied w nsp key e hl]
    by_cases hm : strContains e.message lockContentionPattern = true
    · rw [if_pos hm]
      refine ⟨rfl, rfl, rfl, fun e' => ?_, fun ev hev => ?_⟩
      · simp [sinkSignal]
      · simp [sinkSignal] at hev
        subst hev
        rfl
    · rw [if_neg hm]
      refine ⟨rfl, rfl, rfl, fun e' => ?_, fun ev hev => ?_⟩
      · simp [sinkSignal, eq_comm]
      · simp [sinkSignal] at hev
        rcases hev with rfl | rfl <;> rfl

end Distribucache
